import Mathlib

/-!
Shallow embedding of `src/qei.rs` from the `stm32f0xx-hal` fork: a driver that
configures an STM32F0 timer peripheral (TIM3 with a 16-bit counter, TIM2 with a
32-bit counter) as a quadrature-encoder interface, and exposes `count` and
`read_direction` accessors.

The Rust code manipulates memory-mapped registers through the svd2rust API:
`reg.write(|w| ...)` writes the whole register starting from its reset value,
`reg.modify(|r, w| ...)` performs a read-modify-write preserving untouched
fields.  We mirror that API: each register is a structure of its named fields
(reset value = the all-zero structure, which is the hardware reset value of
every register the driver touches), `write` functions ignore the prior value
and start from `reset`, `modify` functions are structure updates.

The configuration sequence of `Qei::tim3` / `Qei::tim2` (the `qei!` macro body)
is embedded as a list of `Step`s, so that the order of register accesses is
itself an object of the model, together with a `Step.apply` semantics that
folds the steps over a hardware state.
-/

namespace Stm32Qei

/-- The direction the quadrature encoder is counting (`enum Direction` in
`qei.rs`). -/
inductive Direction where
  /-- The encoder is counting down. -/
  | Downcounting
  /-- The encoder is counting up. -/
  | Upcounting
  deriving Repr, DecidableEq

/-- TIMx CCMR1 register viewed in input-capture mode (`ccmr1_input()`):
capture/compare selection fields `cc1s`/`cc2s` (2 bits each), input prescalers
`ic1psc`/`ic2psc` (2 bits each), input filters `ic1f`/`ic2f` (4 bits each). -/
structure CCMR1 where
  cc1s : Nat
  ic1psc : Nat
  ic1f : Nat
  cc2s : Nat
  ic2psc : Nat
  ic2f : Nat
  deriving Repr, DecidableEq

/-- Hardware reset value of CCMR1: all fields zero. -/
def CCMR1.reset : CCMR1 := ⟨0, 0, 0, 0, 0, 0⟩

/-- TIMx CCER register: capture/compare enable and polarity bits for the four
channels. -/
structure CCER where
  cc1e : Bool
  cc1p : Bool
  cc1np : Bool
  cc2e : Bool
  cc2p : Bool
  cc2np : Bool
  cc3e : Bool
  cc3p : Bool
  cc4e : Bool
  cc4p : Bool
  deriving Repr, DecidableEq

/-- Hardware reset value of CCER: all bits clear. -/
def CCER.reset : CCER :=
  ⟨false, false, false, false, false, false, false, false, false, false⟩

/-- TIMx SMCR register: slave-mode selection `sms` (3 bits; `encoder_mode_1` =
1, `encoder_mode_2` = 2, `encoder_mode_3` = 3), plus the remaining fields
(OCCS, trigger selection, master/slave mode, external-trigger configuration). -/
structure SMCR where
  sms : Nat
  occs : Bool
  ts : Nat
  msm : Bool
  etf : Nat
  etps : Nat
  ece : Bool
  etp : Bool
  deriving Repr, DecidableEq

/-- Hardware reset value of SMCR: all fields zero. -/
def SMCR.reset : SMCR := ⟨0, false, 0, false, 0, 0, false, false⟩

/-- TIMx CR1 register: counter enable `cen`, direction status `dir`, and the
remaining control fields. -/
structure CR1 where
  cen : Bool
  udis : Bool
  urs : Bool
  opm : Bool
  dir : Bool
  cms : Nat
  arpe : Bool
  ckd : Nat
  deriving Repr, DecidableEq

/-- Hardware reset value of CR1: all fields zero. -/
def CR1.reset : CR1 := ⟨false, false, false, false, false, 0, false, 0⟩

/-- The register block of one timer peripheral, restricted to the registers
the driver touches: CCMR1, CCER, SMCR, ARR (auto-reload), CR1, CNT (counter). -/
structure TimRegs where
  ccmr1 : CCMR1
  ccer : CCER
  smcr : SMCR
  arr : Nat
  cr1 : CR1
  cnt : Nat
  deriving Repr, DecidableEq

/-- Hardware reset state of the timer register block (every register the
driver touches resets to zero). -/
def TimRegs.reset : TimRegs :=
  ⟨CCMR1.reset, CCER.reset, SMCR.reset, 0, CR1.reset, 0⟩

/-- RCC APB1ENR register, restricted to the timer clock-enable bits the driver
touches. -/
structure RccApb1Enr where
  tim2en : Bool
  tim3en : Bool
  deriving Repr, DecidableEq

/-- RCC APB1RSTR register, restricted to the timer reset bits the driver
touches. -/
structure RccApb1Rstr where
  tim2rst : Bool
  tim3rst : Bool
  deriving Repr, DecidableEq

/-- The RCC (clock controller) registers used by the driver. -/
structure RccRegs where
  apb1enr : RccApb1Enr
  apb1rstr : RccApb1Rstr
  deriving Repr, DecidableEq

/-- Which timer instance the `qei!` macro was instantiated for. -/
inductive TimId where
  | tim2
  | tim3
  deriving Repr, DecidableEq

/-- The hardware state visible to the driver: the RCC registers and the timer
register block. -/
structure HwState where
  rcc : RccRegs
  tim : TimRegs
  deriving Repr, DecidableEq

/-- `tim.ccmr1_input().modify(|_, w| w.cc1s().ti1().cc2s().ti2())`:
read-modify-write setting CC1S to TI1 (= 1) and CC2S to TI2 (= 1), preserving
all other fields. -/
def CCMR1.modifyBoth (r : CCMR1) : CCMR1 := { r with cc1s := 1, cc2s := 1 }

/-- `tim.ccmr1_input().modify(|_, w| w.cc1s().ti1())`: read-modify-write
setting CC1S to TI1 (= 1), preserving all other fields. -/
def CCMR1.modifyC1 (r : CCMR1) : CCMR1 := { r with cc1s := 1 }

/-- `tim.ccmr1_input().modify(|_, w| w.cc2s().ti2())`: read-modify-write
setting CC2S to TI2 (= 1), preserving all other fields. -/
def CCMR1.modifyC2 (r : CCMR1) : CCMR1 := { r with cc2s := 1 }

/-- `tim.ccer.write(|w| w.cc1p().set_bit().cc2p().set_bit())`: whole-register
write; every field other than CC1P and CC2P takes its reset value, the prior
register value is ignored. -/
def CCER.writeBoth (_r : CCER) : CCER :=
  { CCER.reset with cc1p := true, cc2p := true }

/-- `tim.ccer.write(|w| w.cc1p().set_bit())`: whole-register write setting only
CC1P. -/
def CCER.writeC1 (_r : CCER) : CCER := { CCER.reset with cc1p := true }

/-- `tim.ccer.write(|w| w.cc2p().set_bit())`: whole-register write setting only
CC2P. -/
def CCER.writeC2 (_r : CCER) : CCER := { CCER.reset with cc2p := true }

/-- `tim.smcr.write(|w| w.sms().encoder_mode_N())`: whole-register write; SMS
takes the encoder-mode value (1, 2 or 3), every other field its reset value. -/
def SMCR.writeMode (_r : SMCR) (mode : Nat) : SMCR :=
  { SMCR.reset with sms := mode }

/-- `tim.cr1.write(|w| w.cen().set_bit())`: whole-register write setting only
CEN. -/
def CR1.writeCen (_r : CR1) : CR1 := { CR1.reset with cen := true }

/-- One register access of the configuration sequence in the `qei!` macro body. -/
inductive Step where
  /-- `rcc.regs.apb1enr.modify(|_, w| w.timXen().set_bit())` -/
  | enableClock
  /-- `rcc.regs.apb1rstr.modify(|_, w| w.timXrst().set_bit())` -/
  | assertReset
  /-- `rcc.regs.apb1rstr.modify(|_, w| w.timXrst().clear_bit())` -/
  | deassertReset
  /-- CCMR1 modify for the both-channels binding -/
  | modifyCcmr1Both
  /-- CCMR1 modify for the channel-1-only binding -/
  | modifyCcmr1C1
  /-- CCMR1 modify for the channel-2-only binding -/
  | modifyCcmr1C2
  /-- CCER write for the both-channels binding -/
  | writeCcerBoth
  /-- CCER write for the channel-1-only binding -/
  | writeCcerC1
  /-- CCER write for the channel-2-only binding -/
  | writeCcerC2
  /-- `tim.smcr.write(|w| w.sms().encoder_mode_N())` -/
  | writeSmcr (mode : Nat)
  /-- `tim.arr.write(|w| w.arr().variant(v))` -/
  | writeArr (v : Nat)
  /-- `tim.cr1.write(|w| w.cen().set_bit())` -/
  | writeCr1Cen
  deriving Repr, DecidableEq

/-- Steps that write registers of the timer peripheral itself (as opposed to
the RCC clock-controller registers). -/
def Step.isTimAccess : Step → Bool
  | .enableClock | .assertReset | .deassertReset => false
  | _ => true

/-- The encoder sub-mode selection writes of configuration step 3: CCMR1
capture-source selection, CCER polarity, SMCR slave-mode selection. -/
def Step.isModeWrite : Step → Bool
  | .modifyCcmr1Both | .modifyCcmr1C1 | .modifyCcmr1C2
  | .writeCcerBoth | .writeCcerC1 | .writeCcerC2
  | .writeSmcr _ => true
  | _ => false

/-- Semantics of one configuration step on the hardware state.  Asserting the
peripheral's reset bit additionally resets the timer register block to its
hardware reset values (`TimRegs.reset`) — that is the documented hardware
effect of the APB1RSTR bit, and the reason the driver pulses it. -/
def Step.apply (id : TimId) (st : Step) (s : HwState) : HwState :=
  match st with
  | .enableClock =>
      { s with rcc := { s.rcc with apb1enr :=
          match id with
          | .tim2 => { s.rcc.apb1enr with tim2en := true }
          | .tim3 => { s.rcc.apb1enr with tim3en := true } } }
  | .assertReset =>
      { rcc := { s.rcc with apb1rstr :=
          match id with
          | .tim2 => { s.rcc.apb1rstr with tim2rst := true }
          | .tim3 => { s.rcc.apb1rstr with tim3rst := true } },
        tim := TimRegs.reset }
  | .deassertReset =>
      { s with rcc := { s.rcc with apb1rstr :=
          match id with
          | .tim2 => { s.rcc.apb1rstr with tim2rst := false }
          | .tim3 => { s.rcc.apb1rstr with tim3rst := false } } }
  | .modifyCcmr1Both => { s with tim := { s.tim with ccmr1 := s.tim.ccmr1.modifyBoth } }
  | .modifyCcmr1C1 => { s with tim := { s.tim with ccmr1 := s.tim.ccmr1.modifyC1 } }
  | .modifyCcmr1C2 => { s with tim := { s.tim with ccmr1 := s.tim.ccmr1.modifyC2 } }
  | .writeCcerBoth => { s with tim := { s.tim with ccer := s.tim.ccer.writeBoth } }
  | .writeCcerC1 => { s with tim := { s.tim with ccer := s.tim.ccer.writeC1 } }
  | .writeCcerC2 => { s with tim := { s.tim with ccer := s.tim.ccer.writeC2 } }
  | .writeSmcr mode => { s with tim := { s.tim with smcr := s.tim.smcr.writeMode mode } }
  | .writeArr v => { s with tim := { s.tim with arr := v } }
  | .writeCr1Cen => { s with tim := { s.tim with cr1 := s.tim.cr1.writeCen } }

/-- The mode-selection writes chosen by the `if PINS::C1 && PINS::C2 / else if
PINS::C1 / else if PINS::C2` cascade (configuration step 3).  `c1`/`c2` are
`PINS::C1`/`PINS::C2`: whether channel 1 / channel 2 of the timer is bound to
a real pin. -/
def modeSteps (c1 c2 : Bool) : List Step :=
  if c1 && c2 then [.modifyCcmr1Both, .writeCcerBoth, .writeSmcr 3]
  else if c1 then [.modifyCcmr1C1, .writeCcerC1, .writeSmcr 1]
  else if c2 then [.modifyCcmr1C2, .writeCcerC2, .writeSmcr 2]
  else []

/-- The full register-access sequence of `Qei::$tim`, in program order:
clock enable, reset pulse, mode selection, ARR write (`$width::MAX`
= `2 ^ width - 1`), CEN write. -/
def qeiProgram (c1 c2 : Bool) (width : Nat) : List Step :=
  [.enableClock, .assertReset, .deassertReset]
    ++ modeSteps c1 c2
    ++ [.writeArr (2 ^ width - 1), .writeCr1Cen]

/-- Run a list of configuration steps over the hardware state, left to right. -/
def runProgram (id : TimId) (prog : List Step) (s : HwState) : HwState :=
  prog.foldl (fun s st => st.apply id s) s

/-- `struct Qei<TIMER> { timer: TIMER }`: the constructed driver value, owning
the timer register block. -/
structure Qei where
  timer : TimRegs
  deriving Repr, DecidableEq

/-- `Qei::tim3(tim, _pins, rcc)`: the `qei!` macro instantiated at
`TIM3: (tim3, tim3en, tim3rst, apb1enr, apb1rstr, u16)`.  Returns the
hardware state after the configuration sequence together with the `Qei`
value owning the timer. -/
def Qei.tim3 (c1 c2 : Bool) (s : HwState) : HwState × Qei :=
  let s' := runProgram .tim3 (qeiProgram c1 c2 16) s
  (s', ⟨s'.tim⟩)

/-- `Qei::tim2(tim, _pins, rcc)`: the `qei!` macro instantiated at
`TIM2: (tim2, tim2en, tim2rst, apb1enr, apb1rstr, u32)`. -/
def Qei.tim2 (c1 c2 : Bool) (s : HwState) : HwState × Qei :=
  let s' := runProgram .tim2 (qeiProgram c1 c2 32) s
  (s', ⟨s'.tim⟩)

/-- `Qei::read_direction(&self)`: `match self.timer.cr1.read().dir().bit_is_set()
{ true => Downcounting, false => Upcounting }`. -/
def Qei.read_direction (q : Qei) : Direction :=
  match q.timer.cr1.dir with
  | true => Direction.Downcounting
  | false => Direction.Upcounting

/-- `Qei::count(&self)`: `self.timer.cnt.read().cnt().bits()` — the bits of
the CNT register at the instance's counter width (`u16` for TIM3, `u32` for
TIM2). -/
def Qei.count (width : Nat) (q : Qei) : Nat :=
  q.timer.cnt % 2 ^ width

/-- `read_direction` as an observation step returning the (unchanged) driver
state: the Rust method takes `&self` and only performs a register read, which
has no side effect on CR1. -/
def Qei.readDirectionStep (q : Qei) : Direction × Qei :=
  (q.read_direction, q)

/-- `count` as an observation step returning the (unchanged) driver state:
the Rust method takes `&self` and only performs a register read, which has no
side effect on CNT. -/
def Qei.countStep (width : Nat) (q : Qei) : Nat × Qei :=
  (q.count width, q)

/-- Modelled from the spec: the counting behaviour of the timer hardware on
one encoder count event, which is not code under `src/` (the driver only
configures the peripheral; the counting itself is done by the silicon).  Per
the spec, the counter counts only when enabled and in an encoder sub-mode
(SMS ∈ {1, 2, 3}); it is free-running: counting up it "counts continuously up
to its maximum representable value [ARR] before wrapping to zero", counting
down it wraps from 0 back to ARR. -/
def encoderCount (t : TimRegs) : TimRegs :=
  if t.cr1.cen = true ∧ 1 ≤ t.smcr.sms ∧ t.smcr.sms ≤ 3 then
    if t.cr1.dir then
      { t with cnt := if t.cnt = 0 then t.arr else t.cnt - 1 }
    else
      { t with cnt := if t.arr ≤ t.cnt then 0 else t.cnt + 1 }
  else t

/-- A timer register state with a nonzero counter value, used as a concrete
evaluation point. -/
def timAt42 : TimRegs := { TimRegs.reset with cnt := 42 }

/-- The timer register block after the configuration sequence of the `qei!`
macro instantiated at timer `id` with counter width `w`, run from prior
hardware state `s` with channel binding `(c1, c2)`. -/
def qeiTim (id : TimId) (c1 c2 : Bool) (w : Nat) (s : HwState) : TimRegs :=
  (runProgram id (qeiProgram c1 c2 w) s).tim

/-- C1: the construction operation selects the encoder sub-mode determined by
the channel binding — both channels: CC1S = TI1, CC2S = TI2, both polarities
active-low (CC1P = CC2P = set), SMS = encoder mode 3; channel 1 only:
CC1S = TI1, CC1P set, SMS = encoder mode 1; channel 2 only: CC2S = TI2, CC2P
set, SMS = encoder mode 2 — for every timer instance, width and prior
hardware state. -/
theorem mode_selection_by_binding (id : TimId) (w : Nat) (s : HwState) :
    ((qeiTim id true true w s).ccmr1.cc1s = 1 ∧
      (qeiTim id true true w s).ccmr1.cc2s = 1 ∧
      (qeiTim id true true w s).ccer.cc1p = true ∧
      (qeiTim id true true w s).ccer.cc2p = true ∧
      (qeiTim id true true w s).smcr.sms = 3)
    ∧ ((qeiTim id true false w s).ccmr1.cc1s = 1 ∧
        (qeiTim id true false w s).ccer.cc1p = true ∧
        (qeiTim id true false w s).smcr.sms = 1)
    ∧ ((qeiTim id false true w s).ccmr1.cc2s = 1 ∧
        (qeiTim id false true w s).ccer.cc2p = true ∧
        (qeiTim id false true w s).smcr.sms = 2) := by
  cases id <;>
    exact ⟨⟨rfl, rfl, rfl, rfl, rfl⟩, ⟨rfl, rfl, rfl⟩, ⟨rfl, rfl, rfl⟩⟩

/-- C2: the configuration sequence performs, in exactly this order: (1) clock
enable, (2) reset assert then immediately de-assert, (3) the encoder sub-mode
selection writes, (4) the ARR write, (5) the CEN write; the clock enable is
the very first access (so it precedes every peripheral register access), the
first three steps touch no timer register, and the steps between the reset
pulse and the ARR write are exactly mode-selection writes (so the reset pulse
precedes them). -/
theorem configuration_order (c1 c2 : Bool) (w : Nat) :
    qeiProgram c1 c2 w =
      [Step.enableClock, Step.assertReset, Step.deassertReset]
        ++ modeSteps c1 c2
        ++ [Step.writeArr (2 ^ w - 1), Step.writeCr1Cen]
    ∧ (qeiProgram c1 c2 w).head? = some Step.enableClock
    ∧ ((qeiProgram c1 c2 w).take 3).all (fun st => !st.isTimAccess) = true
    ∧ (modeSteps c1 c2).all Step.isModeWrite = true := by
  cases c1 <;> cases c2 <;> exact ⟨rfl, rfl, rfl, rfl⟩

/-- C3: after construction on TIM3 (16-bit counter), ARR holds 65535
(`u16::MAX`) and CEN is set, for every binding and prior state; in general
the ARR write programs the full-scale maximum `2 ^ w - 1` of the configured
counter width (in particular `2 ^ 32 - 1 = u32::MAX` for TIM2). -/
theorem arr_full_scale_and_enabled (c1 c2 : Bool) (id : TimId) (w : Nat)
    (s : HwState) :
    ((Qei.tim3 c1 c2 s).2.timer.arr = 65535)
    ∧ ((Qei.tim3 c1 c2 s).2.timer.cr1.cen = true)
    ∧ (qeiTim id c1 c2 w s).arr = 2 ^ w - 1
    ∧ (qeiTim id c1 c2 w s).cr1.cen = true := by
  cases id <;> cases c1 <;> cases c2 <;> exact ⟨rfl, rfl, rfl, rfl⟩

/-- C4: `read_direction` returns `Downcounting` exactly when CR1.DIR is set
and `Upcounting` exactly when it is clear, for every driver state; as an
observation step it always succeeds (it is total) and leaves the state
untouched (no register writes, no other side effects). -/
theorem read_direction_matches_dir_bit (q : Qei) :
    (q.read_direction = Direction.Downcounting ↔ q.timer.cr1.dir = true)
    ∧ (q.read_direction = Direction.Upcounting ↔ q.timer.cr1.dir = false)
    ∧ q.readDirectionStep = (q.read_direction, q) := by
  refine ⟨?_, ?_, rfl⟩ <;>
    · cases h : q.timer.cr1.dir <;> simp [Qei.read_direction, h]

/-- C5: `count` returns exactly the live CNT register value with no
transformation (whenever CNT holds a value representable in the configured
width, which the hardware guarantees), and as an observation step it leaves
the state untouched. -/
theorem count_returns_live_counter (w : Nat) (q : Qei)
    (h : q.timer.cnt < 2 ^ w) :
    q.count w = q.timer.cnt ∧ q.countStep w = (q.timer.cnt, q) := by
  have hc : q.count w = q.timer.cnt := Nat.mod_eq_of_lt h
  exact ⟨hc, by simp [Qei.countStep, hc]⟩

/-- Witness for C5 at a concrete state: CNT = 42 on the 16-bit instance. -/
theorem count_returns_live_counter_witness :
    (Qei.mk timAt42).timer.cnt < 2 ^ 16 ∧
      ((Qei.mk timAt42).count 16 = (Qei.mk timAt42).timer.cnt ∧
        (Qei.mk timAt42).countStep 16 = ((Qei.mk timAt42).timer.cnt, Qei.mk timAt42)) :=
  ⟨by decide, count_returns_live_counter 16 (Qei.mk timAt42) (by decide)⟩

/-- C6: with the channel-1-only binding the mode-selection writes touch only
channel 1's capture-source and polarity (the CCMR1 modify writes CC1S only,
the CCER write sets CC1P only, then SMS := 1), and after construction every
channel-2 configuration field — CC2S, IC2PSC, IC2F in CCMR1 and CC2P, CC2E in
CCER — is at its post-reset default value, for every timer instance, width and
prior state. -/
theorem channel1_only_frame (id : TimId) (w : Nat) (s : HwState) :
    modeSteps true false = [Step.modifyCcmr1C1, Step.writeCcerC1, Step.writeSmcr 1]
    ∧ (qeiTim id true false w s).ccmr1.cc2s = CCMR1.reset.cc2s
    ∧ (qeiTim id true false w s).ccmr1.ic2psc = CCMR1.reset.ic2psc
    ∧ (qeiTim id true false w s).ccmr1.ic2f = CCMR1.reset.ic2f
    ∧ (qeiTim id true false w s).ccer.cc2p = CCER.reset.cc2p
    ∧ (qeiTim id true false w s).ccer.cc2e = CCER.reset.cc2e := by
  cases id <;> exact ⟨rfl, rfl, rfl, rfl, rfl, rfl⟩

/-- C7: with neither channel bound, construction performs no mode-selection
write at all (the `if`/`else if` cascade falls through), still returns a
`Qei` value — the constructor is a total function, no error, no panic — and
leaves SMS = 0 (no encoder sub-mode selected), so an encoder count event does
not change the counter: silent no-op behaviour. -/
theorem no_channel_silent_noop (id : TimId) (w : Nat) (s : HwState) :
    modeSteps false false = []
    ∧ (qeiTim id false false w s).smcr.sms = 0
    ∧ encoderCount (qeiTim id false false w s) = qeiTim id false false w s
    ∧ (Qei.tim3 false false s).2 = Qei.mk (qeiTim TimId.tim3 false false 16 s) := by
  cases id <;> exact ⟨rfl, rfl, rfl, rfl⟩

/-- An upcounting encoder count event with the counter at or above the
auto-reload value wraps the counter to 0. -/
theorem encoderCount_cnt_wrap (t : TimRegs) (hcen : t.cr1.cen = true)
    (hdir : t.cr1.dir = false) (hsms : t.smcr.sms = 3)
    (hle : t.arr ≤ t.cnt) : (encoderCount t).cnt = 0 := by
  simp [encoderCount, hcen, hdir, hsms, hle]

/-- C8: with the counter at its maximum representable value for the
configured width (2^16 - 1 on TIM3, 2^32 - 1 on TIM2) and one more counting
increment occurring (upcounting encoder count event), `count` returns 0: the
value wraps modulo 2^width, with no error and no undefined value, because
construction programmed ARR to the full-scale maximum. -/
theorem count_wraparound (s : HwState) :
    Qei.count 16
        (Qei.mk (encoderCount
          { (Qei.tim3 true true s).2.timer with cnt := 2 ^ 16 - 1 })) = 0
    ∧ Qei.count 32
        (Qei.mk (encoderCount
          { (Qei.tim2 true true s).2.timer with cnt := 2 ^ 32 - 1 })) = 0 := by
  constructor
  · have h := encoderCount_cnt_wrap
      { (Qei.tim3 true true s).2.timer with cnt := 2 ^ 16 - 1 }
      rfl rfl rfl (Nat.le_refl _)
    simp at h
    simp [Qei.count, h]
  · have h := encoderCount_cnt_wrap
      { (Qei.tim2 true true s).2.timer with cnt := 2 ^ 32 - 1 }
      rfl rfl rfl (Nat.le_refl _)
    simp at h
    simp [Qei.count, h]

/-- C9: with the underlying registers unchanged, repeated `count` /
`read_direction` observations return the same value each time and leave the
driver state unchanged: the reads are idempotent, deterministic functions of
the hardware state alone. -/
theorem idempotent_reads (w : Nat) (q : Qei) :
    ((q.readDirectionStep).2.readDirectionStep).1 = (q.readDirectionStep).1
    ∧ (q.readDirectionStep).2 = q
    ∧ ((q.countStep w).2.countStep w).1 = (q.countStep w).1
    ∧ (q.countStep w).2 = q :=
  ⟨rfl, rfl, rfl, rfl⟩

/-- C10: the CCER and SMCR writes are whole-register writes — their result
ignores the prior register value (it equals the result from the reset value),
so after construction with any binding that connects a channel, every CCER
field other than the written polarity bit(s), in particular CC1E and CC2E,
and every SMCR field other than SMS is at its reset (zero) value — whereas
the CCMR1 update is a read-modify-write preserving the fields it does not
write (filters and prescalers, and the other channel's CC-selection). -/
theorem whole_register_writes (id : TimId) (w : Nat) (s : HwState)
    (r : CCER) (sm : SMCR) (md : Nat) (m : CCMR1) :
    (r.writeBoth = CCER.reset.writeBoth ∧ r.writeC1 = CCER.reset.writeC1 ∧
      r.writeC2 = CCER.reset.writeC2 ∧ sm.writeMode md = SMCR.reset.writeMode md)
    ∧ ((qeiTim id true true w s).ccer =
          { CCER.reset with cc1p := true, cc2p := true } ∧
        (qeiTim id true true w s).smcr = { SMCR.reset with sms := 3 })
    ∧ ((qeiTim id true false w s).ccer = { CCER.reset with cc1p := true } ∧
        (qeiTim id true false w s).smcr = { SMCR.reset with sms := 1 })
    ∧ ((qeiTim id false true w s).ccer = { CCER.reset with cc2p := true } ∧
        (qeiTim id false true w s).smcr = { SMCR.reset with sms := 2 })
    ∧ ((qeiTim id true true w s).ccer.cc1e = false ∧
        (qeiTim id true true w s).ccer.cc2e = false)
    ∧ (m.modifyBoth.ic1psc = m.ic1psc ∧ m.modifyBoth.ic1f = m.ic1f ∧
        m.modifyBoth.ic2psc = m.ic2psc ∧ m.modifyBoth.ic2f = m.ic2f)
    ∧ (m.modifyC1.cc2s = m.cc2s ∧ m.modifyC1.ic2psc = m.ic2psc ∧
        m.modifyC1.ic2f = m.ic2f ∧ m.modifyC1.ic1psc = m.ic1psc ∧
        m.modifyC1.ic1f = m.ic1f)
    ∧ (m.modifyC2.cc1s = m.cc1s ∧ m.modifyC2.ic1psc = m.ic1psc ∧
        m.modifyC2.ic1f = m.ic1f ∧ m.modifyC2.ic2psc = m.ic2psc ∧
        m.modifyC2.ic2f = m.ic2f) := by
  cases id <;>
    exact ⟨⟨rfl, rfl, rfl, rfl⟩, ⟨rfl, rfl⟩, ⟨rfl, rfl⟩, ⟨rfl, rfl⟩,
      ⟨rfl, rfl⟩, ⟨rfl, rfl, rfl, rfl⟩, ⟨rfl, rfl, rfl, rfl, rfl⟩,
      ⟨rfl, rfl, rfl, rfl, rfl⟩⟩

end Stm32Qei
